import Mathlib

/-!
Verification of the Kompose desktop shell's command-bar logic
(`apps/web/src-tauri/src/lib.rs`): the shortcut-preset registry
(`primary_modifier`, `shortcut_for_preset`, `register_shortcut_preset`,
`unregister_shortcut_preset`, `set_command_bar_shortcut_preset`) and the
command-bar window controller (`toggle_command_bar_window`,
`dismiss_command_bar`, the focus-loss listener installed by
`create_command_bar_window`).

The embedding is a shallow one: the OS and the host framework are modelled
as explicit inputs and outputs.  OS-interop outcomes that the code branches
on (global-shortcut registration success, mutex poisoning, the frontmost
application's pid, the current process id) are parameters; the set of
key-chords currently bound with the OS is carried as explicit state; every
OS call the code makes is recorded in an output trace.  Window operations
whose failure the code either ignores or merely propagates (`hide`, `show`,
`center`, `set_focus`, `is_visible`) are modelled as succeeding, since no
claim concerns their failure.  Desktop builds are modelled (the
`#[cfg(not(desktop))]` stubs are dead on desktop); the platform split that
matters, macOS versus the other desktop platforms, is the `Platform` type.
-/

/-- The two platform classes the code distinguishes with
`#[cfg(target_os = "macos")]` / `#[cfg(not(target_os = "macos"))]`. -/
inductive Platform where
  | macos : Platform
  | otherDesktop : Platform
deriving DecidableEq

/-- The modifier-key bitflags of `tauri_plugin_global_shortcut::Modifiers`,
restricted to the flags this code uses. -/
structure Modifiers where
  shift : Bool
  control : Bool
  alt : Bool
  superMod : Bool
deriving DecidableEq

def Modifiers.SHIFT : Modifiers := ⟨true, false, false, false⟩

def Modifiers.CONTROL : Modifiers := ⟨false, true, false, false⟩

def Modifiers.ALT : Modifiers := ⟨false, false, true, false⟩

def Modifiers.SUPER : Modifiers := ⟨false, false, false, true⟩

/-- Bitflag union, the `|` of the Rust `primary | Modifiers::SHIFT`. -/
def Modifiers.union (a b : Modifiers) : Modifiers :=
  ⟨a.shift || b.shift, a.control || b.control, a.alt || b.alt,
   a.superMod || b.superMod⟩

/-- The key codes of `tauri_plugin_global_shortcut::Code` this code uses. -/
inductive Code where
  | KeyK : Code
  | Space : Code
deriving DecidableEq

/-- `tauri_plugin_global_shortcut::Shortcut`: an optional modifier set and a
key code, built by `Shortcut::new`. -/
structure Shortcut where
  mods : Option Modifiers
  key : Code
deriving DecidableEq

def Shortcut.new (mods : Option Modifiers) (key : Code) : Shortcut :=
  ⟨mods, key⟩

/-- `DEFAULT_SHORTCUT_PRESET_ID` from `lib.rs`. -/
def DEFAULT_SHORTCUT_PRESET_ID : String := "cmd_or_ctrl_shift_k"

/-- `primary_modifier()`: `Modifiers::SUPER` on macOS, `Modifiers::CONTROL`
on every other desktop platform. -/
def primary_modifier (plat : Platform) : Modifiers :=
  match plat with
  | Platform.macos => Modifiers.SUPER
  | Platform.otherDesktop => Modifiers.CONTROL

/-- `shortcut_for_preset(preset_id)`: the fixed three-entry preset table.
The Rust string match is translated to an if-chain on string equality. -/
def shortcut_for_preset (plat : Platform) (preset_id : String) :
    Option Shortcut :=
  let primary := primary_modifier plat
  if preset_id = "cmd_or_ctrl_shift_k" then
    some (Shortcut.new (some (Modifiers.union primary Modifiers.SHIFT)) Code.KeyK)
  else if preset_id = "ctrl_space" then
    some (Shortcut.new (some Modifiers.CONTROL) Code.Space)
  else if preset_id = "alt_space" then
    some (Shortcut.new (some Modifiers.ALT) Code.Space)
  else
    none

/-- Rust's `char::is_whitespace`: membership in the Unicode `White_Space`
set, written out by code point. -/
def rustIsWhitespace (c : Char) : Bool :=
  [0x09, 0x0A, 0x0B, 0x0C, 0x0D, 0x20, 0x85, 0xA0, 0x1680,
   0x2000, 0x2001, 0x2002, 0x2003, 0x2004, 0x2005, 0x2006, 0x2007,
   0x2008, 0x2009, 0x200A, 0x2028, 0x2029, 0x202F, 0x205F, 0x3000].contains
    c.toNat

/-- Rust's `str::trim`: drop leading and trailing whitespace characters. -/
def rustTrim (s : String) : String :=
  String.mk
    ((((s.data.dropWhile rustIsWhitespace).reverse.dropWhile
        rustIsWhitespace)).reverse)

example : rustTrim "  ctrl_space " = "ctrl_space" := by decide
example : rustTrim "ctrl_space" = "ctrl_space" := by decide

/-- The Rust struct `CommandBarShortcutState`: the two mutex-guarded cells.
The mutexes themselves (their possible poisoning) are modelled in
`AppState` below; this structure records the guarded values, for the
`Default` impl. -/
structure CommandBarShortcutState where
  active_preset : String
  previous_frontmost_pid : Int
deriving DecidableEq

/-- `impl Default for CommandBarShortcutState`: the default preset id and
the sentinel pid `-1`. -/
def CommandBarShortcutState.defaultState : CommandBarShortcutState :=
  { active_preset := DEFAULT_SHORTCUT_PRESET_ID, previous_frontmost_pid := -1 }

/-- The whole-system state the claims are about: the two mutex-guarded
cells with their poison flags, the command-bar window (existence and
visibility), and the set of key-chords currently registered with the OS. -/
structure AppState where
  activePreset : String
  activePoisoned : Bool
  prevPid : Int
  pidPoisoned : Bool
  windowExists : Bool
  windowVisible : Bool
  osBound : List Shortcut
deriving DecidableEq

/-- The state right after `run`'s setup on desktop: the managed
`CommandBarShortcutState::default()`, the command-bar window created hidden
by `create_command_bar_window`, and the default chord registered (when that
best-effort registration succeeded). -/
def initialAppState : AppState :=
  { activePreset := CommandBarShortcutState.defaultState.active_preset
    activePoisoned := false
    prevPid := CommandBarShortcutState.defaultState.previous_frontmost_pid
    pidPoisoned := false
    windowExists := true
    windowVisible := false
    osBound :=
      (shortcut_for_preset Platform.macos DEFAULT_SHORTCUT_PRESET_ID).toList }

/-- A call into the OS global-shortcut registry
(`app.global_shortcut().register` / `.unregister`), recorded whether or not
the OS reports success. -/
inductive OsCall where
  | register : Shortcut → OsCall
  | unregister : Shortcut → OsCall
deriving DecidableEq

/-- A window / application operation performed by the controller. -/
inductive WinAction where
  | storePid : Int → WinAction
  | show : WinAction
  | center : WinAction
  | focus : WinAction
  | hide : WinAction
  | hideApp : WinAction
deriving DecidableEq

/-- `register_shortcut_preset(app, preset_id)`.  `osRegisterError` is the
OS's answer to the registration request: `none` means the OS accepts the
chord, `some err` the error it reports (for example when the chord is
already bound system-wide).  Returns the Rust `Result`, the updated set of
OS-bound chords, and the OS calls made. -/
def register_shortcut_preset (plat : Platform) (osRegisterError : Option String)
    (bound : List Shortcut) (preset_id : String) :
    Except String Unit × List Shortcut × List OsCall :=
  match shortcut_for_preset plat preset_id with
  | none =>
      (Except.error
        ("Unsupported command bar shortcut preset '" ++ preset_id ++ "'."),
       bound, [])
  | some sc =>
      match osRegisterError with
      | some err =>
          (Except.error
            ("Failed to register shortcut preset '" ++ preset_id ++ "': " ++ err),
           bound, [OsCall.register sc])
      | none => (Except.ok (), sc :: bound, [OsCall.register sc])

/-- `unregister_shortcut_preset(app, preset_id)`: best-effort, an OS failure
(`osUnregisterFails = true`) is only logged and leaves the chord bound.
Returns the updated set of OS-bound chords and the OS calls made. -/
def unregister_shortcut_preset (plat : Platform) (osUnregisterFails : Bool)
    (bound : List Shortcut) (preset_id : String) :
    List Shortcut × List OsCall :=
  match shortcut_for_preset plat preset_id with
  | none => (bound, [])
  | some sc =>
      if osUnregisterFails then (bound, [OsCall.unregister sc])
      else (bound.filter (fun b => !(decide (b = sc))), [OsCall.unregister sc])

instance : DecidableEq (Except String Unit) := fun a b =>
  match a, b with
  | Except.ok (), Except.ok () => isTrue rfl
  | Except.ok (), Except.error _ => isFalse (fun h => Except.noConfusion h)
  | Except.error _, Except.ok () => isFalse (fun h => Except.noConfusion h)
  | Except.error x, Except.error y =>
      if h : x = y then isTrue (congrArg Except.error h)
      else isFalse (by intro hh; cases hh; exact h rfl)

/-- Outcome of the `set_command_bar_shortcut_preset` command: the Rust
`Result<(), String>`, the state after the call, and the OS calls made. -/
structure SetPresetOutcome where
  result : Except String Unit
  state : AppState
  osCalls : List OsCall
deriving DecidableEq

/-- The `set_command_bar_shortcut_preset` command (desktop body): trim the
requested id, reject an unresolvable id, surface a poisoned preset mutex as
an error string, no-op when the id equals the active preset, otherwise
unregister the old chord (best-effort), register the new one (its failure
aborts the call), and only then store the new id. -/
def set_command_bar_shortcut_preset (plat : Platform)
    (osRegisterError : Option String) (osUnregisterFails : Bool)
    (st : AppState) (preset_id : String) : SetPresetOutcome :=
  let next_preset := rustTrim preset_id
  if (shortcut_for_preset plat next_preset).isNone then
    { result :=
        Except.error
          ("Unsupported command bar shortcut preset '" ++ next_preset ++ "'.")
      state := st
      osCalls := [] }
  else if st.activePoisoned then
    { result := Except.error "Failed to lock command bar preset state."
      state := st
      osCalls := [] }
  else
    let previous_preset := st.activePreset
    if previous_preset = next_preset then
      { result := Except.ok (), state := st, osCalls := [] }
    else
      let unreg :=
        unregister_shortcut_preset plat osUnregisterFails st.osBound
          previous_preset
      let reg := register_shortcut_preset plat osRegisterError unreg.1 next_preset
      match reg.1 with
      | Except.error e =>
          { result := Except.error ("Failed to register new shortcut: " ++ e)
            state := { st with osBound := reg.2.1 }
            osCalls := unreg.2 ++ reg.2.2 }
      | Except.ok _ =>
          -- The second lock of `active_preset`; its poisoning was already
          -- checked above and cannot have changed within this call.
          { result := Except.ok ()
            state := { st with activePreset := next_preset, osBound := reg.2.1 }
            osCalls := unreg.2 ++ reg.2.2 }

/-- Outcome of `toggle_command_bar_window`: the Rust `tauri::Result<()>`
(window operations are modelled as succeeding, so the interesting content is
that the pid-mutex lock failure is not an error), the state after the call,
and the window actions performed. -/
structure ToggleOutcome where
  result : Except String Unit
  state : AppState
  actions : List WinAction
deriving DecidableEq

/-- `toggle_command_bar_window(app)`: no-op when the window does not exist;
hide when visible; otherwise (macOS only) snapshot the frontmost pid into
the state when the pid mutex is healthy, then show, center and focus.
`frontmostPid` models the return of `get_frontmost_app_pid()`. -/
def toggle_command_bar_window (plat : Platform) (frontmostPid : Int)
    (st : AppState) : ToggleOutcome :=
  if !st.windowExists then
    { result := Except.ok (), state := st, actions := [] }
  else if st.windowVisible then
    { result := Except.ok ()
      state := { st with windowVisible := false }
      actions := [WinAction.hide] }
  else
    let snap :=
      if plat = Platform.macos then
        if st.pidPoisoned then (st, ([] : List WinAction))
        else ({ st with prevPid := frontmostPid },
              [WinAction.storePid frontmostPid])
      else (st, [])
    { result := Except.ok ()
      state := { snap.1 with windowVisible := true }
      actions := snap.2 ++ [WinAction.show, WinAction.center, WinAction.focus] }

/-- `win.hide()` on the command-bar window when it exists, a no-op when it
does not (`get_webview_window` returned `None`). -/
def hide_command_bar_if_exists (st : AppState) : AppState × List WinAction :=
  if st.windowExists then
    ({ st with windowVisible := false }, [WinAction.hide])
  else (st, [])

/-- Outcome of the `dismiss_command_bar` command: the Rust function returns
`()`, so there is only the state after the call and the actions performed. -/
structure DismissOutcome where
  state : AppState
  actions : List WinAction
deriving DecidableEq

/-- The `dismiss_command_bar` command (desktop body).  On macOS, read the
stored previous-frontmost pid (a poisoned pid mutex reads as `-1` through
`unwrap_or`); when it is positive and differs from this process's own pid
(`ourPid`, modelling `std::process::id()`), call `hide_app()` — the atomic
hide-and-reactivate — and then mark the command-bar window hidden.  In
every other case, and on the other platforms, just hide the window. -/
def dismiss_command_bar (plat : Platform) (ourPid : Int) (st : AppState) :
    DismissOutcome :=
  if plat = Platform.macos then
    let stored_pid : Int := if st.pidPoisoned then -1 else st.prevPid
    if stored_pid > 0 ∧ stored_pid ≠ ourPid then
      { state := (hide_command_bar_if_exists st).1
        actions := WinAction.hideApp :: (hide_command_bar_if_exists st).2 }
    else
      { state := (hide_command_bar_if_exists st).1
        actions := (hide_command_bar_if_exists st).2 }
  else
    { state := (hide_command_bar_if_exists st).1
      actions := (hide_command_bar_if_exists st).2 }

/-- A window event delivered to the listener `create_command_bar_window`
installs (`WindowEvent::Focused(b)` and everything else). -/
inductive WindowEvent where
  | focused : Bool → WindowEvent
  | other : WindowEvent
deriving DecidableEq

/-- The `on_window_event` closure installed on the command-bar window: on
`Focused(false)` hide the window, on any other event do nothing.  It
operates on the window's visibility directly (the closure holds a handle to
the window it was installed on). -/
def command_bar_on_window_event (ev : WindowEvent) (visible : Bool) :
    Bool × List WinAction :=
  match ev with
  | WindowEvent.focused false => (false, [WinAction.hide])
  | _ => (visible, [])

/-- Every id the preset table resolves is one of the three literal ids. -/
theorem valid_preset_cases (plat : Platform) (x : String)
    (h : (shortcut_for_preset plat x).isSome = true) :
    x = "cmd_or_ctrl_shift_k" ∨ x = "ctrl_space" ∨ x = "alt_space" := by
  by_cases h1 : x = "cmd_or_ctrl_shift_k"
  · exact Or.inl h1
  · by_cases h2 : x = "ctrl_space"
    · exact Or.inr (Or.inl h2)
    · by_cases h3 : x = "alt_space"
      · exact Or.inr (Or.inr h3)
      · exfalso
        simp [shortcut_for_preset, h1, h2, h3] at h

/-- Valid preset ids contain no surrounding whitespace, so `str::trim`
leaves them unchanged. -/
theorem rustTrim_of_valid (plat : Platform) (x : String)
    (h : (shortcut_for_preset plat x).isSome = true) : rustTrim x = x := by
  rcases valid_preset_cases plat x h with h1 | h1 | h1 <;> subst h1 <;> decide

/-- C3: `shortcut_for_preset` is a pure lookup over exactly three presets:
"cmd_or_ctrl_shift_k" maps to primary-modifier+Shift+K, "ctrl_space" to
Control+Space, "alt_space" to Alt+Space, with the primary modifier Super on
macOS and Control elsewhere; every other string yields `none`. -/
theorem shortcut_for_preset_table :
    primary_modifier Platform.macos = Modifiers.SUPER ∧
    primary_modifier Platform.otherDesktop = Modifiers.CONTROL ∧
    (∀ plat : Platform,
      shortcut_for_preset plat "cmd_or_ctrl_shift_k" =
        some (Shortcut.new
          (some (Modifiers.union (primary_modifier plat) Modifiers.SHIFT))
          Code.KeyK) ∧
      shortcut_for_preset plat "ctrl_space" =
        some (Shortcut.new (some Modifiers.CONTROL) Code.Space) ∧
      shortcut_for_preset plat "alt_space" =
        some (Shortcut.new (some Modifiers.ALT) Code.Space)) ∧
    (∀ plat : Platform, ∀ s : String,
      s ≠ "cmd_or_ctrl_shift_k" → s ≠ "ctrl_space" → s ≠ "alt_space" →
      shortcut_for_preset plat s = none) := by
  refine ⟨rfl, rfl, ?_, ?_⟩
  · intro plat
    cases plat <;> exact ⟨by decide, by decide, by decide⟩
  · intro plat s h1 h2 h3
    simp [shortcut_for_preset, h1, h2, h3]

/-- Witness for C3: a string outside the table resolves to nothing. -/
theorem shortcut_for_preset_table_witness :
    shortcut_for_preset Platform.macos "bogus" = none :=
  shortcut_for_preset_table.2.2.2 Platform.macos "bogus" (by decide) (by decide)
    (by decide)

/-- C5: a preset id that does not resolve (after trimming) makes
`set_command_bar_shortcut_preset` return the human-readable error string,
with the state (in particular `active_preset` and the OS-bound chords)
untouched and no OS call made. -/
theorem set_preset_unresolved_id (plat : Platform) (regErr : Option String)
    (u : Bool) (st : AppState) (s : String)
    (h : (shortcut_for_preset plat (rustTrim s)).isNone = true) :
    set_command_bar_shortcut_preset plat regErr u st s =
      { result :=
          Except.error
            ("Unsupported command bar shortcut preset '" ++ rustTrim s ++ "'.")
        state := st
        osCalls := [] } := by
  simp [set_command_bar_shortcut_preset, h]

/-- Witness for C5 at the unresolvable id "bogus". -/
theorem set_preset_unresolved_id_witness :
    set_command_bar_shortcut_preset Platform.macos none false initialAppState
        "bogus" =
      { result :=
          Except.error
            ("Unsupported command bar shortcut preset '" ++ rustTrim "bogus" ++
              "'.")
        state := initialAppState
        osCalls := [] } :=
  set_preset_unresolved_id Platform.macos none false initialAppState "bogus"
    (by decide)

/-- C4: setting a valid preset id that is already the active preset
succeeds, changes nothing and makes no OS unregister or register call; and
the call right after it with the same id is again such a no-op. -/
theorem set_preset_idempotent (plat : Platform) (regErr : Option String)
    (u u2 : Bool) (st : AppState) (x : String)
    (hvalid : (shortcut_for_preset plat x).isSome = true)
    (hactive : st.activePreset = x)
    (hlock : st.activePoisoned = false) :
    set_command_bar_shortcut_preset plat regErr u st x =
      { result := Except.ok (), state := st, osCalls := [] } ∧
    set_command_bar_shortcut_preset plat regErr u2
        (set_command_bar_shortcut_preset plat regErr u st x).state x =
      { result := Except.ok (), state := st, osCalls := [] } := by
  have htrim : rustTrim x = x := rustTrim_of_valid plat x hvalid
  have hfirst :
      set_command_bar_shortcut_preset plat regErr u st x =
        { result := Except.ok (), state := st, osCalls := [] } := by
    rcases Option.isSome_iff_exists.mp hvalid with ⟨sc, hsc⟩
    simp [set_command_bar_shortcut_preset, htrim, hsc, hlock, hactive]
  refine ⟨hfirst, ?_⟩
  rw [hfirst]
  rcases Option.isSome_iff_exists.mp hvalid with ⟨sc, hsc⟩
  simp [set_command_bar_shortcut_preset, htrim, hsc, hlock, hactive]

/-- Witness for C4: re-setting the default preset on a fresh state is a
no-op twice in a row. -/
theorem set_preset_idempotent_witness :
    set_command_bar_shortcut_preset Platform.macos none false initialAppState
        "cmd_or_ctrl_shift_k" =
      { result := Except.ok (), state := initialAppState, osCalls := [] } ∧
    set_command_bar_shortcut_preset Platform.macos none true
        (set_command_bar_shortcut_preset Platform.macos none false
          initialAppState "cmd_or_ctrl_shift_k").state "cmd_or_ctrl_shift_k" =
      { result := Except.ok (), state := initialAppState, osCalls := [] } :=
  set_preset_idempotent Platform.macos none false true initialAppState
    "cmd_or_ctrl_shift_k" (by decide) (by decide) (by decide)

/-- C9: `set_command_bar_shortcut_preset` trims the requested id before
validating it and before storing it: a whitespace-padded valid id is
accepted and `active_preset` becomes the trimmed form, and an id invalid
after trimming is rejected with the trimmed form in the error message. -/
theorem set_preset_trims (plat : Platform) (u : Bool) (st : AppState)
    (s : String) :
    ((shortcut_for_preset plat (rustTrim s)).isSome = true →
      st.activePoisoned = false →
      st.activePreset ≠ rustTrim s →
      (set_command_bar_shortcut_preset plat none u st s).result =
          Except.ok () ∧
        (set_command_bar_shortcut_preset plat none u st s).state.activePreset =
          rustTrim s) ∧
    ((shortcut_for_preset plat (rustTrim s)).isNone = true →
      (set_command_bar_shortcut_preset plat none u st s).result =
        Except.error
          ("Unsupported command bar shortcut preset '" ++ rustTrim s ++ "'.")) := by
  constructor
  · intro hvalid hlock hneq
    rcases Option.isSome_iff_exists.mp hvalid with ⟨sc, hsc⟩
    simp [set_command_bar_shortcut_preset, hsc, hlock, hneq,
      register_shortcut_preset]
  · intro hnone
    simp [set_command_bar_shortcut_preset, hnone]

/-- Witness for C9: the padded id " ctrl_space " is accepted and stored
trimmed. -/
theorem set_preset_trims_witness :
    (set_command_bar_shortcut_preset Platform.macos none false initialAppState
        " ctrl_space ").result = Except.ok () ∧
    (set_command_bar_shortcut_preset Platform.macos none false initialAppState
        " ctrl_space ").state.activePreset = rustTrim " ctrl_space " :=
  (set_preset_trims Platform.macos false initialAppState " ctrl_space ").1
    (by decide) (by decide) (by decide)

/-- Counterexample to C1 as stated: from the freshly set-up state (default
preset active and its chord OS-bound), requesting the resolvable preset
"ctrl_space" while the OS rejects the registration returns an error and
leaves `active_preset` unchanged — but the previously bound chord is NOT
still bound: it was unregistered before the failed registration, so nothing
is bound at all. -/
theorem set_preset_failed_register_counterexample :
    (shortcut_for_preset Platform.macos (rustTrim "ctrl_space")).isSome =
      true ∧
    initialAppState.osBound =
      [Shortcut.new (some (Modifiers.union Modifiers.SUPER Modifiers.SHIFT))
        Code.KeyK] ∧
    (set_command_bar_shortcut_preset Platform.macos
        (some "shortcut already bound") false initialAppState
        "ctrl_space").result =
      Except.error
        "Failed to register new shortcut: Failed to register shortcut preset 'ctrl_space': shortcut already bound" ∧
    (set_command_bar_shortcut_preset Platform.macos
        (some "shortcut already bound") false initialAppState
        "ctrl_space").state.activePreset = initialAppState.activePreset ∧
    (set_command_bar_shortcut_preset Platform.macos
        (some "shortcut already bound") false initialAppState
        "ctrl_space").state.osBound = [] := by
  decide

/-- C1 as amended: when the new id resolves but the OS rejects the new
chord's registration, `set_command_bar_shortcut_preset` returns an error
and `active_preset` is left unchanged; but since the old chord was
unregistered (best-effort) before the registration attempt, a successful
unregister leaves the old chord no longer OS-bound — the app can be left
with no shortcut bound at all. -/
theorem set_preset_failed_register_amended (plat : Platform) (err : String)
    (st : AppState) (s : String) (oldSc : Shortcut)
    (hvalid : (shortcut_for_preset plat (rustTrim s)).isSome = true)
    (hlock : st.activePoisoned = false)
    (hneq : st.activePreset ≠ rustTrim s)
    (hold : shortcut_for_preset plat st.activePreset = some oldSc) :
    (set_command_bar_shortcut_preset plat (some err) false st s).result =
      Except.error
        ("Failed to register new shortcut: " ++
          ("Failed to register shortcut preset '" ++ rustTrim s ++ "': " ++
            err)) ∧
    (set_command_bar_shortcut_preset plat (some err) false st
        s).state.activePreset = st.activePreset ∧
    oldSc ∉
      (set_command_bar_shortcut_preset plat (some err) false st
        s).state.osBound := by
  rcases Option.isSome_iff_exists.mp hvalid with ⟨sc, hsc⟩
  refine ⟨?_, ?_, ?_⟩ <;>
    simp [set_command_bar_shortcut_preset, hsc, hlock, hneq,
      register_shortcut_preset, unregister_shortcut_preset, hold,
      List.mem_filter]

/-- Witness for the amended C1, at the counterexample's input. -/
theorem set_preset_failed_register_amended_witness :
    (set_command_bar_shortcut_preset Platform.macos
        (some "shortcut already bound") false initialAppState
        "ctrl_space").result =
      Except.error
        ("Failed to register new shortcut: " ++
          ("Failed to register shortcut preset '" ++ rustTrim "ctrl_space" ++
            "': " ++ "shortcut already bound")) ∧
    (set_command_bar_shortcut_preset Platform.macos
        (some "shortcut already bound") false initialAppState
        "ctrl_space").state.activePreset = initialAppState.activePreset ∧
    Shortcut.new (some (Modifiers.union Modifiers.SUPER Modifiers.SHIFT))
        Code.KeyK ∉
      (set_command_bar_shortcut_preset Platform.macos
        (some "shortcut already bound") false initialAppState
        "ctrl_space").state.osBound :=
  set_preset_failed_register_amended Platform.macos "shortcut already bound"
    initialAppState "ctrl_space"
    (Shortcut.new (some (Modifiers.union Modifiers.SUPER Modifiers.SHIFT))
      Code.KeyK)
    (by decide) (by decide) (by decide) (by decide)

/-- C2: on macOS, `dismiss_command_bar` performs the atomic
hide-and-reactivate followed by separately hiding the popup exactly when
the stored previous-frontmost pid reads as a positive id different from
this process's own id; in every other case (poisoned pid mutex reading as
-1, non-positive pid, or own pid) it only hides the popup, and on the
other desktop platforms it always only hides the popup. -/
theorem dismiss_branches (ourPid : Int) (st : AppState)
    (hw : st.windowExists = true) :
    ((st.pidPoisoned = false ∧ st.prevPid > 0 ∧ st.prevPid ≠ ourPid) →
      dismiss_command_bar Platform.macos ourPid st =
        { state := { st with windowVisible := false }
          actions := [WinAction.hideApp, WinAction.hide] }) ∧
    (¬(st.pidPoisoned = false ∧ st.prevPid > 0 ∧ st.prevPid ≠ ourPid) →
      dismiss_command_bar Platform.macos ourPid st =
        { state := { st with windowVisible := false }
          actions := [WinAction.hide] }) ∧
    (dismiss_command_bar Platform.otherDesktop ourPid st =
      { state := { st with windowVisible := false }
        actions := [WinAction.hide] }) := by
  refine ⟨?_, ?_, ?_⟩
  · rintro ⟨hp, hpos, hne⟩
    simp [dismiss_command_bar, hide_command_bar_if_exists, hw, hp, hpos, hne]
  · intro hneg
    by_cases hp : st.pidPoisoned
    · simp [dismiss_command_bar, hide_command_bar_if_exists, hw, hp]
    · have hp' : st.pidPoisoned = false := by simpa using hp
      have hcond : ¬(st.prevPid > 0 ∧ st.prevPid ≠ ourPid) := by
        intro hc
        exact hneg ⟨hp', hc.1, hc.2⟩
      simp [dismiss_command_bar, hide_command_bar_if_exists, hw, hp', hcond]
  · simp [dismiss_command_bar, hide_command_bar_if_exists, hw]

/-- Witness for C2: with an external pid 42 stored and own pid 7, dismissal
atomically hides the app and then hides the popup. -/
theorem dismiss_branches_witness :
    dismiss_command_bar Platform.macos 7
        { initialAppState with prevPid := 42 } =
      { state := { { initialAppState with prevPid := 42 } with
          windowVisible := false }
        actions := [WinAction.hideApp, WinAction.hide] } :=
  (dismiss_branches 7 { initialAppState with prevPid := 42 } (by decide)).1
    (by decide)

/-- C6: toggling the command-bar window twice returns it to its original
visibility; the visible-to-hidden transition just hides it, and the
hidden-to-visible transition (on macOS, with a healthy pid mutex) stores
the frontmost pid before showing, centering and focusing the window. -/
theorem toggle_twice_restores (plat : Platform) (p1 p2 : Int) (st : AppState)
    (hw : st.windowExists = true) :
    ((toggle_command_bar_window plat p2
        (toggle_command_bar_window plat p1 st).state).state.windowVisible =
      st.windowVisible) ∧
    (st.windowVisible = true →
      toggle_command_bar_window plat p1 st =
        { result := Except.ok ()
          state := { st with windowVisible := false }
          actions := [WinAction.hide] }) ∧
    (st.windowVisible = false → plat = Platform.macos →
      st.pidPoisoned = false →
      toggle_command_bar_window plat p1 st =
        { result := Except.ok ()
          state := { st with prevPid := p1, windowVisible := true }
          actions := [WinAction.storePid p1, WinAction.show, WinAction.center,
                      WinAction.focus] }) := by
  refine ⟨?_, ?_, ?_⟩
  · by_cases hv : st.windowVisible
    · cases plat <;>
        by_cases hp : st.pidPoisoned <;>
          simp [toggle_command_bar_window, hw, hv, hp]
    · have hv' : st.windowVisible = false := by simpa using hv
      cases plat <;>
        by_cases hp : st.pidPoisoned <;>
          simp [toggle_command_bar_window, hw, hv', hp]
  · intro hv
    simp [toggle_command_bar_window, hw, hv]
  · intro hv hplat hp
    subst hplat
    simp [toggle_command_bar_window, hw, hv, hp]

/-- Witness for C6: from the fresh hidden state, the first toggle shows
(storing pid 42 first) and a second toggle hides again. -/
theorem toggle_twice_restores_witness :
    ((toggle_command_bar_window Platform.macos 43
        (toggle_command_bar_window Platform.macos 42
          initialAppState).state).state.windowVisible =
      initialAppState.windowVisible) ∧
    toggle_command_bar_window Platform.macos 42 initialAppState =
      { result := Except.ok ()
        state := { initialAppState with prevPid := 42, windowVisible := true }
        actions := [WinAction.storePid 42, WinAction.show, WinAction.center,
                    WinAction.focus] } :=
  ⟨(toggle_twice_restores Platform.macos 42 43 initialAppState (by decide)).1,
   (toggle_twice_restores Platform.macos 42 43 initialAppState
      (by decide)).2.2 (by decide) (by decide) (by decide)⟩

/-- C7: the focus-changed listener installed on the command-bar window
hides it the moment it reports losing focus, whatever the window's prior
visibility — no `toggle` or `dismiss` call is involved. -/
theorem focus_loss_hides :
    ∀ visible : Bool,
      command_bar_on_window_event (WindowEvent.focused false) visible =
        (false, [WinAction.hide]) :=
  fun _ => rfl

/-- The fresh state with its pid mutex poisoned (and a stored pid that
would otherwise select the atomic-hide branch). -/
def poisonedPidState : AppState :=
  { initialAppState with prevPid := 999, pidPoisoned := true }

/-- Counterexample to C8 as stated: with the pid mutex poisoned, `toggle`
still returns success — the poisoning is not surfaced to the caller as an
error string (the code drops it with `if let Ok`); `dismiss` likewise
surfaces nothing and silently falls back to the simple-hide branch even
though the stored pid 999 would otherwise select the atomic-hide branch
(its `DismissOutcome` has no error channel at all, as the Rust function
returns `()`). -/
theorem poisoned_lock_counterexample :
    poisonedPidState.pidPoisoned = true ∧
    (toggle_command_bar_window Platform.macos 42 poisonedPidState).result =
      Except.ok () ∧
    (dismiss_command_bar Platform.macos 7 poisonedPidState).actions =
      [WinAction.hide] := by
  decide

/-- C8 as amended: a poisoned mutex never panics (every operation is total
and returns), but only `set_command_bar_shortcut_preset` surfaces it as the
generic error string; `toggle_command_bar_window` skips storing the pid and
still reports success, and `dismiss_command_bar` reads the pid as -1 and
takes the simple-hide branch, surfacing nothing. -/
theorem poisoned_lock_amended (plat : Platform) (regErr : Option String)
    (u : Bool) (st : AppState) (s : String) (fp ourPid : Int) :
    ((shortcut_for_preset plat (rustTrim s)).isSome = true →
      st.activePoisoned = true →
      set_command_bar_shortcut_preset plat regErr u st s =
        { result := Except.error "Failed to lock command bar preset state."
          state := st
          osCalls := [] }) ∧
    (st.pidPoisoned = true →
      (toggle_command_bar_window plat fp st).result = Except.ok () ∧
      (toggle_command_bar_window plat fp st).state.prevPid = st.prevPid) ∧
    (st.pidPoisoned = true →
      dismiss_command_bar Platform.macos ourPid st =
        { state := (hide_command_bar_if_exists st).1
          actions := (hide_command_bar_if_exists st).2 }) := by
  refine ⟨?_, ?_, ?_⟩
  · intro hvalid hlock
    rcases Option.isSome_iff_exists.mp hvalid with ⟨sc, hsc⟩
    simp [set_command_bar_shortcut_preset, hsc, hlock]
  · intro hp
    by_cases hex : st.windowExists
    · by_cases hv : st.windowVisible
      · simp [toggle_command_bar_window, hex, hv]
      · have hv' : st.windowVisible = false := by simpa using hv
        cases plat <;> simp [toggle_command_bar_window, hex, hv', hp]
    · have hex' : st.windowExists = false := by simpa using hex
      simp [toggle_command_bar_window, hex']
  · intro hp
    simp [dismiss_command_bar, hp]

/-- Witness for the amended C8: the three poisoned-lock behaviors at
concrete states. -/
theorem poisoned_lock_amended_witness :
    set_command_bar_shortcut_preset Platform.macos none false
        { initialAppState with activePoisoned := true } "ctrl_space" =
      { result := Except.error "Failed to lock command bar preset state."
        state := { initialAppState with activePoisoned := true }
        osCalls := [] } ∧
    (toggle_command_bar_window Platform.macos 42 poisonedPidState).result =
      Except.ok () ∧
    dismiss_command_bar Platform.macos 7 poisonedPidState =
      { state := (hide_command_bar_if_exists poisonedPidState).1
        actions := (hide_command_bar_if_exists poisonedPidState).2 } :=
  ⟨(poisoned_lock_amended Platform.macos none false
      { initialAppState with activePoisoned := true } "ctrl_space" 42 7).1
      (by decide) (by decide),
   ((poisoned_lock_amended Platform.macos none false poisonedPidState
      "ctrl_space" 42 7).2.1 (by decide)).1,
   (poisoned_lock_amended Platform.macos none false poisonedPidState
      "ctrl_space" 42 7).2.2 (by decide)⟩

/-- C10: the stored previous-frontmost pid starts at the sentinel -1 (both
in `CommandBarShortcutState::default()` and in the post-setup state); no
`dismiss_command_bar` changes it; `toggle_command_bar_window` leaves it
unchanged unless the window exists and is hidden (the hidden-to-visible
transition); with the sentinel still in place, dismissal always takes the
simple-hide branch; and a second dismissal without an intervening toggle
re-reads the same stored pid, repeating the first one's actions. -/
theorem prev_pid_invariants :
    CommandBarShortcutState.defaultState.previous_frontmost_pid = -1 ∧
    initialAppState.prevPid = -1 ∧
    (∀ (plat : Platform) (ourPid : Int) (st : AppState),
      (dismiss_command_bar plat ourPid st).state.prevPid = st.prevPid) ∧
    (∀ (plat : Platform) (fp : Int) (st : AppState),
      st.windowVisible = true ∨ st.windowExists = false →
      (toggle_command_bar_window plat fp st).state.prevPid = st.prevPid) ∧
    (∀ (ourPid : Int) (st : AppState),
      st.prevPid = -1 →
      (dismiss_command_bar Platform.macos ourPid st).actions =
        (if st.windowExists then [WinAction.hide] else [])) ∧
    (∀ (plat : Platform) (ourPid : Int) (st : AppState),
      (dismiss_command_bar plat ourPid
        ((dismiss_command_bar plat ourPid st).state)).actions =
      (dismiss_command_bar plat ourPid st).actions) := by
  refine ⟨rfl, rfl, ?_, ?_, ?_, ?_⟩
  · intro plat ourPid st
    cases plat <;>
      by_cases hex : st.windowExists <;>
        by_cases hp : st.pidPoisoned <;>
          simp [dismiss_command_bar, hide_command_bar_if_exists, hex, hp] <;>
            split <;> simp
  · intro plat fp st h
    rcases h with hv | hex
    · simp [toggle_command_bar_window, hv]
      split <;> simp
    · simp [toggle_command_bar_window, hex]
  · intro ourPid st hpid
    by_cases hex : st.windowExists <;>
      by_cases hp : st.pidPoisoned <;>
        simp [dismiss_command_bar, hide_command_bar_if_exists, hp, hpid, hex]
  · intro plat ourPid st
    cases plat with
    | otherDesktop =>
        by_cases hex : st.windowExists <;>
          simp [dismiss_command_bar, hide_command_bar_if_exists, hex]
    | macos =>
        by_cases hp : st.pidPoisoned
        · by_cases hex : st.windowExists <;>
            simp [dismiss_command_bar, hide_command_bar_if_exists, hp, hex]
        · have hp' : st.pidPoisoned = false := by simpa using hp
          by_cases hc : 0 < st.prevPid ∧ ¬st.prevPid = ourPid <;>
            by_cases hex : st.windowExists <;>
              simp [dismiss_command_bar, hide_command_bar_if_exists, hp', hex,
                hc]

/-- Witness for C10: a toggle on a visible window leaves the stored pid
alone, and a dismissal from the fresh state (sentinel pid -1) performs only
the simple hide. -/
theorem prev_pid_invariants_witness :
    (toggle_command_bar_window Platform.macos 42
        { initialAppState with windowVisible := true }).state.prevPid =
      ({ initialAppState with windowVisible := true } : AppState).prevPid ∧
    (dismiss_command_bar Platform.macos 7 initialAppState).actions =
      (if initialAppState.windowExists then [WinAction.hide] else []) :=
  ⟨prev_pid_invariants.2.2.2.1 Platform.macos 42
      { initialAppState with windowVisible := true } (Or.inl rfl),
   prev_pid_invariants.2.2.2.2.1 7 initialAppState (by decide)⟩
